import Mathlib

/-!
Verification of the edgedb-python client session layer.

The definitions below are a shallow embedding of the two source modules:

* `edgedb/legacy_transaction.py` — the transaction state machine
  (`TransactionState`, `BaseTransaction`, `AsyncIOTransaction`); and
* `edgedb/base_client.py` — the connection pool
  (`BaseConnection`, `BaseImpl`, `PoolConnectionHolder`, `BasePoolImpl`).

Python's mutable objects are modelled by explicit state passing: every
operation takes the relevant state and returns the updated state together
with an `Except` value standing for Python's raise/return distinction.
Awaited network calls (`privileged_execute`, the connection factory) are
modelled as oracles passed in as parameters.  Pools are modelled as
constructed without `on_connect`/`on_acquire`/`on_release` callbacks (the
`None` default), so the source's `if cb is not None` branches are skipped.
-/

namespace EdgeDB

/-! ## Errors

One error type shared by both modules.  `raised e` stands for an arbitrary
exception propagated unchanged out of an external awaited call (the payload
`e` is opaque). -/

inductive Err
  | interfaceError (msg : String)
  | internalClientError (msg : String)
  | valueError (msg : String)
  | raised (e : Nat)
  deriving DecidableEq, Repr

/-! ## Transaction state machine (edgedb/legacy_transaction.py) -/

/-- TransactionState enum, legacy_transaction.py lines 33-38. -/
inductive TransactionState
  | NEW
  | STARTED
  | COMMITTED
  | ROLLEDBACK
  | FAILED
  deriving DecidableEq, Repr

/-- The mutable attributes of a `BaseTransaction` (its `__slots__`).
`objId` models Python object identity, used by the `con._top_xact is self`
checks. -/
structure Tx where
  objId : Nat
  isolation : Option String
  readonly : Option Bool
  deferrable : Option Bool
  state : TransactionState
  nested : Bool
  id : Option String
  managed : Bool
  deriving DecidableEq, Repr

/-- The part of the inner connection object the transaction code touches:
`_top_xact` (a reference to the top-level transaction, held here as the
stored transaction value) plus the counter backing `_get_unique_id`. -/
structure ConnInner where
  topXact : Option Tx
  uidCounter : Nat
  deriving DecidableEq, Repr

/-- Test whether `con._top_xact is self` (object identity). -/
def ConnInner.isTop (con : ConnInner) (t : Tx) : Bool :=
  match con.topXact with
  | some top => top.objId = t.objId
  | none => false

/-- Modelled from the spec: `_get_unique_id` lives on the connection object
outside this repository slice; per the spec it allocates a fresh savepoint
identifier for a nested transaction. -/
def ConnInner.getUniqueId (con : ConnInner) (tag : String) :
    String × ConnInner :=
  (tag ++ "_" ++ toString con.uidCounter,
   { con with uidCounter := con.uidCounter + 1 })

/-- Render an optional string the way the conflict messages interpolate it
(Python quoting of the repr is elided; the value itself is kept). -/
def optStr : Option String → String
  | some s => s
  | none => "None"

/-- Render an optional bool the way Python interpolates it. -/
def optBoolStr : Option Bool → String
  | some true => "True"
  | some false => "False"
  | none => "None"

/-- BaseTransaction.__check_state_base, lines 68-80. -/
def checkStateBase (st : TransactionState) (opname : String) :
    Except Err Unit :=
  if st = .COMMITTED then
    .error (.interfaceError
      ("cannot " ++ opname ++ "; the transaction is already committed"))
  else if st = .ROLLEDBACK then
    .error (.interfaceError
      ("cannot " ++ opname ++ "; the transaction is already rolled back"))
  else if st = .FAILED then
    .error (.interfaceError
      ("cannot " ++ opname ++ "; the transaction is in error state"))
  else
    .ok ()

/-- BaseTransaction.__check_state, lines 82-88. -/
def checkState (st : TransactionState) (opname : String) : Except Err Unit :=
  if st ≠ .STARTED then
    if st = .NEW then
      .error (.interfaceError
        ("cannot " ++ opname ++ "; the transaction is not yet started"))
    else
      checkStateBase st opname
  else
    .ok ()

/-- The query-building tail of `_make_start_query`, lines 130-151: the
savepoint declaration for a nested transaction, or the
`START TRANSACTION ...` statement assembled from the attributes. -/
def buildStartQuery (t : Tx) (con : ConnInner) :
    Tx × ConnInner × Except Err String :=
  if t.nested then
    let (sid, con1) := con.getUniqueId "savepoint"
    ({ t with id := some sid }, con1,
      .ok ("DECLARE SAVEPOINT " ++ sid ++ ";"))
  else
    let q0 :=
      if t.isolation = some "repeatable_read" then
        "START TRANSACTION ISOLATION REPEATABLE READ"
      else if t.isolation = some "serializable" then
        "START TRANSACTION ISOLATION SERIALIZABLE"
      else
        "START TRANSACTION"
    let q1 :=
      if t.readonly = some true then q0 ++ " READ ONLY"
      else if t.readonly ≠ none then q0 ++ " READ WRITE"
      else q0
    let q2 :=
      if t.deferrable = some true then q1 ++ " DEFERRABLE"
      else if t.deferrable ≠ none then q1 ++ " NOT DEFERRABLE"
      else q1
    (t, con, .ok (q2 ++ ";"))

/-- The conditional attribute assignment `if self._isolation is None:
self._isolation = top_xact._isolation` (line 103-104). -/
def inheritIso (t top : Tx) : Tx :=
  if t.isolation = none then { t with isolation := top.isolation } else t

/-- The conditional attribute assignment for `_readonly` (lines 105-106). -/
def inheritReadonly (t top : Tx) : Tx :=
  if t.readonly = none then { t with readonly := top.readonly } else t

/-- The conditional attribute assignment for `_deferrable` (lines
107-108). -/
def inheritDeferrable (t top : Tx) : Tx :=
  if t.deferrable = none then { t with deferrable := top.deferrable } else t

/-- The three successive conditional assignments of lines 103-108 that make
an unset attribute inherit the top-level transaction's value. -/
def inheritFromTop (t top : Tx) : Tx :=
  inheritDeferrable (inheritReadonly (inheritIso t top) top) top

/-- BaseTransaction._make_start_query, lines 90-151.  Returns the possibly
mutated transaction and connection even when an error is raised, mirroring
Python's in-place attribute mutation. -/
def makeStartQuery (t : Tx) (con : ConnInner) :
    Tx × ConnInner × Except Err String :=
  match checkStateBase t.state "start" with
  | .error e => (t, con, .error e)
  | .ok _ =>
    if t.state = .STARTED then
      (t, con, .error (.interfaceError
        "cannot start; the transaction is already started"))
    else
      match con.topXact with
      | none => buildStartQuery t { con with topXact := some t }
      | some top =>
        let t3 := inheritFromTop t top
        if t3.isolation ≠ top.isolation then
          (t3, con, .error (.interfaceError
            ("nested transaction has a different isolation level: current "
              ++ optStr t3.isolation ++ " != outer "
              ++ optStr top.isolation)))
        else if t3.readonly ≠ top.readonly then
          (t3, con, .error (.interfaceError
            ("nested transaction has a different read-write spec: current "
              ++ optBoolStr t3.readonly ++ " != outer "
              ++ optBoolStr top.readonly)))
        else if t3.deferrable ≠ top.deferrable then
          (t3, con, .error (.interfaceError
            ("nested transaction has a different deferrable spec: current "
              ++ optBoolStr t3.deferrable ++ " != outer "
              ++ optBoolStr top.deferrable)))
        else
          buildStartQuery { t3 with nested := true } con

/-- BaseTransaction._make_commit_query, lines 153-164. -/
def makeCommitQuery (t : Tx) (con : ConnInner) :
    Tx × ConnInner × Except Err String :=
  match checkState t.state "commit" with
  | .error e => (t, con, .error e)
  | .ok _ =>
    let con1 := if con.isTop t then { con with topXact := none } else con
    if t.nested then
      (t, con1, .ok ("RELEASE SAVEPOINT " ++ optStr t.id ++ ";"))
    else
      (t, con1, .ok "COMMIT;")

/-- BaseTransaction._make_rollback_query, lines 166-177. -/
def makeRollbackQuery (t : Tx) (con : ConnInner) :
    Tx × ConnInner × Except Err String :=
  match checkState t.state "rollback" with
  | .error e => (t, con, .error e)
  | .ok _ =>
    let con1 := if con.isTop t then { con with topXact := none } else con
    if t.nested then
      (t, con1, .ok ("ROLLBACK TO SAVEPOINT " ++ optStr t.id ++ ";"))
    else
      (t, con1, .ok "ROLLBACK;")

/-- AsyncIOTransaction.start, lines 217-230.  The awaited
`privileged_execute` is the oracle `exec`: `.ok ()` means the statement
succeeded, `.error e` means it raised the (opaque) exception `e`, which is
re-raised as `Err.raised e`. -/
def Tx.start (t : Tx) (con : ConnInner) (exec : String → Except Nat Unit) :
    Tx × ConnInner × Except Err Unit :=
  let r := makeStartQuery t con
  match r.2.2 with
  | .error e => (r.1, r.2.1, .error e)
  | .ok query =>
    match exec query with
    | .error e => ({ r.1 with state := .FAILED }, r.2.1, .error (.raised e))
    | .ok _ => ({ r.1 with state := .STARTED }, r.2.1, .ok ())

/-- AsyncIOTransaction.__commit, lines 232-240. -/
def Tx.commitInner (t : Tx) (con : ConnInner)
    (exec : String → Except Nat Unit) : Tx × ConnInner × Except Err Unit :=
  let r := makeCommitQuery t con
  match r.2.2 with
  | .error e => (r.1, r.2.1, .error e)
  | .ok query =>
    match exec query with
    | .error e => ({ r.1 with state := .FAILED }, r.2.1, .error (.raised e))
    | .ok _ => ({ r.1 with state := .COMMITTED }, r.2.1, .ok ())

/-- AsyncIOTransaction.__rollback, lines 242-250. -/
def Tx.rollbackInner (t : Tx) (con : ConnInner)
    (exec : String → Except Nat Unit) : Tx × ConnInner × Except Err Unit :=
  let r := makeRollbackQuery t con
  match r.2.2 with
  | .error e => (r.1, r.2.1, .error e)
  | .ok query =>
    match exec query with
    | .error e => ({ r.1 with state := .FAILED }, r.2.1, .error (.raised e))
    | .ok _ => ({ r.1 with state := .ROLLEDBACK }, r.2.1, .ok ())

/-- AsyncIOTransaction.commit, lines 252-257 (the public method with the
managed-mode guard). -/
def Tx.commit (t : Tx) (con : ConnInner) (exec : String → Except Nat Unit) :
    Tx × ConnInner × Except Err Unit :=
  if t.managed then
    (t, con, .error (.interfaceError
      "cannot manually commit from within an `async with` block"))
  else
    t.commitInner con exec

/-- AsyncIOTransaction.rollback, lines 259-264. -/
def Tx.rollback (t : Tx) (con : ConnInner)
    (exec : String → Except Nat Unit) : Tx × ConnInner × Except Err Unit :=
  if t.managed then
    (t, con, .error (.interfaceError
      "cannot manually rollback from within an `async with` block"))
  else
    t.rollbackInner con exec

/-- AsyncIOTransaction.__aenter__, lines 201-206. -/
def Tx.aenter (t : Tx) (con : ConnInner)
    (exec : String → Except Nat Unit) : Tx × ConnInner × Except Err Unit :=
  if t.managed then
    (t, con, .error (.interfaceError
      "cannot enter context: already in an `async with` block"))
  else
    Tx.start { t with managed := true } con exec

/-- AsyncIOTransaction.__aexit__, lines 208-215.  `excPresent` is whether an
exception is in flight (`extype is not None`); the managed flag is cleared
in the `finally` block whatever the commit/rollback does. -/
def Tx.aexit (t : Tx) (con : ConnInner) (exec : String → Except Nat Unit)
    (excPresent : Bool) : Tx × ConnInner × Except Err Unit :=
  let r := if excPresent then t.rollbackInner con exec
           else t.commitInner con exec
  ({ r.1 with managed := false }, r.2.1, r.2.2)

/-- BaseTransaction.is_active, lines 65-66. -/
def Tx.isActive (t : Tx) : Bool :=
  t.state = .STARTED

/-! ## Connection pool (edgedb/base_client.py)

Connections and holders are kept in arenas indexed by `Nat`; the Python
reference cycle `connection._holder` / `holder._con` becomes a pair of
optional indices.  Network effects are parameterized by a `ConnectEnv`
giving the result of connect-argument resolution and the session settings
a newly established connection advertises. -/

/-- The pool-relevant state of a `BaseConnection`: the closed flag (the
abstract `is_closed`), the back-reference to the owning holder
(`_holder`), and the `suggested_pool_concurrency` entry of the session
settings the server advertised. -/
structure Conn where
  closed : Bool
  holderIdx : Option Nat
  settingsSuggested : Option Nat
  deriving DecidableEq, Repr

/-- The state of a `PoolConnectionHolder` (base_client.py lines 225-244):
optional connection index, generation stamp, per-checkout timeout, and the
`_release_event` flag (set iff the holder is free).  The event is created
set by the concrete holder subclass, which lives outside this slice. -/
structure Holder where
  con : Option Nat
  generation : Option Nat
  timeout : Option Nat
  releaseEventSet : Bool
  deriving DecidableEq, Repr

/-- The connect-argument bundle `_connect_args`: `set_connect_args` stores
the new keyword arguments with the dsn folded in (lines 211-212). -/
structure ConnectArgs where
  dsn : Option String
  kwargs : List (String × String)
  deriving DecidableEq, Repr

/-- The state of a `BasePoolImpl` (slots of `BaseImpl` lines 141-149 plus
`BasePoolImpl` lines 337-351).  The codec registry and query cache are
modelled by their contents, a fresh instance being the empty list.
`queue = none` means the availability queue has not been created yet; the
queue lists free holder indices, `put_nowait` appending. -/
structure PoolState where
  conns : List Conn
  holders : List Holder
  queue : Option (List Nat)
  queueMaxsize : Nat
  userConcurrency : Option Nat
  concurrency : Nat
  generation : Nat
  workingAddr : Option String
  workingConfig : Option String
  workingParams : Option String
  connectArgs : ConnectArgs
  codecsRegistry : List (String × Nat)
  queryCache : List (String × Nat)
  closing : Bool
  closed : Bool
  deriving DecidableEq, Repr

/-- The environment of external effects: the triple produced by
`_parse_connect_args` resolution and the `suggested_pool_concurrency`
setting that a newly established session reports. -/
structure ConnectEnv where
  parsedAddr : String
  parsedConfig : String
  parsedParams : String
  settings : Option Nat
  deriving DecidableEq, Repr

/-- BasePoolImpl.__init__, lines 355-389 (concurrency is a natural here, so
the source's `concurrency <= 0` validation is the `c = 0` case). -/
def PoolState.mk0 (ca : ConnectArgs) (concurrency : Option Nat) :
    Except Err PoolState :=
  match concurrency with
  | some c =>
    if c = 0 then
      .error (.valueError "concurrency is expected to be greater than zero")
    else
      .ok { conns := [], holders := [], queue := none, queueMaxsize := 0,
            userConcurrency := some c, concurrency := c, generation := 0,
            workingAddr := none, workingConfig := none, workingParams := none,
            connectArgs := ca, codecsRegistry := [], queryCache := [],
            closing := false, closed := false }
  | none =>
      .ok { conns := [], holders := [], queue := none, queueMaxsize := 0,
            userConcurrency := none, concurrency := 1, generation := 0,
            workingAddr := none, workingConfig := none, workingParams := none,
            connectArgs := ca, codecsRegistry := [], queryCache := [],
            closing := false, closed := false }

/-- Replace holder `h` with the image of `f` (a Python in-place mutation of
one holder object); out-of-range indices leave the state unchanged. -/
def PoolState.modHolder (p : PoolState) (h : Nat) (f : Holder → Holder) :
    PoolState :=
  match p.holders[h]? with
  | none => p
  | some hd => { p with holders := p.holders.set h (f hd) }

/-- Replace connection `c` with the image of `f`. -/
def PoolState.modConn (p : PoolState) (c : Nat) (f : Conn → Conn) :
    PoolState :=
  match p.conns[c]? with
  | none => p
  | some cn => { p with conns := p.conns.set c (f cn) }

/-- PoolConnectionHolder._release, lines 324-333: a no-op on a free holder,
otherwise set the event and put the holder back on the pool queue. -/
def holderSoftRelease (p : PoolState) (h : Nat) : PoolState :=
  match p.holders[h]? with
  | none => p
  | some hd =>
    if hd.releaseEventSet then p
    else
      { p with holders := p.holders.set h { hd with releaseEventSet := true },
               queue := p.queue.map (fun q => q ++ [h]) }

/-- PoolConnectionHolder._release_on_close, lines 320-322. -/
def holderReleaseOnClose (p : PoolState) (h : Nat) : PoolState :=
  (holderSoftRelease p h).modHolder h (fun hd => { hd with con := none })

/-- BaseConnection._cleanup, lines 86-90 (log listeners are not part of the
pool state; clearing them is a no-op here). -/
def connCleanup (p : PoolState) (c : Nat) : PoolState :=
  match p.conns[c]? with
  | none => p
  | some cn =>
    match cn.holderIdx with
    | none => p
    | some h =>
      (holderReleaseOnClose p h).modConn c
        (fun cn1 => { cn1 with holderIdx := none })

/-- BaseConnection.terminate, lines 132-137: abort the protocol (the session
becomes closed) and then always run `_cleanup`; a no-op when already
closed. -/
def connTerminate (p : PoolState) (c : Nat) : PoolState :=
  match p.conns[c]? with
  | none => p
  | some cn =>
    if cn.closed then p
    else connCleanup (p.modConn c (fun cn1 => { cn1 with closed := true })) c

/-- Modelled from the spec: `PoolConnectionHolder.close` is abstract in the
source slice; per the spec the concrete policy closes the underlying
connection and performs the soft release (the release-on-close path of the
connection's cleanup).  The `wait` flag only controls blocking, not the
resulting state. -/
def holderClose (p : PoolState) (h : Nat) : PoolState :=
  match p.holders[h]? with
  | none => p
  | some hd =>
    match hd.con with
    | none => p
    | some c => connTerminate p c

/-- PoolConnectionHolder.terminate, lines 314-318. -/
def holderTerminate (p : PoolState) (h : Nat) : PoolState :=
  match p.holders[h]? with
  | none => p
  | some hd =>
    match hd.con with
    | none => p
    | some c => connTerminate p c

/-- A freshly constructed holder: `PoolConnectionHolder.__init__` lines
236-244; the release event is created set by the concrete subclass
(modelled from the spec: new holders are enqueued as free). -/
def newHolder : Holder :=
  { con := none, generation := none, timeout := none,
    releaseEventSet := true }

/-- Append `n` fresh holders, enqueueing each (the loop body of
`_resize_holder_pool`, lines 426-433). -/
def addHolders : PoolState → Nat → PoolState
  | p, 0 => p
  | p, n + 1 =>
    addHolders
      { p with holders := p.holders ++ [newHolder],
               queue := p.queue.map (fun q => q ++ [p.holders.length]) }
      n

/-- BasePoolImpl._resize_holder_pool, lines 419-436: grow-only resize.  The
source dereferences `self._queue`, so it is only ever called once the
queue exists; the `none` branch is unreachable there. -/
def resizeHolderPool (p : PoolState) : PoolState :=
  match p.queue with
  | none => p
  | some _ =>
    if p.holders.length < p.concurrency then
      let p1 :=
        if p.queueMaxsize ≠ p.concurrency then
          { p with queueMaxsize := p.concurrency }
        else p
      addHolders p1 (p.concurrency - p.holders.length)
    else p

/-- BasePoolImpl.get_concurrency, lines 438-439. -/
def PoolState.getConcurrency (p : PoolState) : Nat :=
  p.concurrency

/-- BasePoolImpl.get_free_size, lines 441-446. -/
def PoolState.getFreeSize (p : PoolState) : Nat :=
  match p.queue with
  | none => p.concurrency
  | some q => q.length

/-- BaseImpl.set_connect_args (lines 193-214) combined with the
BasePoolImpl override (lines 448-452). -/
def setConnectArgs (p : PoolState) (dsn : Option String)
    (kwargs : List (String × String)) : PoolState :=
  { p with connectArgs := { dsn := dsn, kwargs := kwargs },
           codecsRegistry := [], queryCache := [],
           workingAddr := none, workingConfig := none,
           workingParams := none }

/-- BasePoolImpl.expire_connections, lines 520-521. -/
def expireConnections (p : PoolState) : PoolState :=
  { p with generation := p.generation + 1 }

/-- Modelled from the spec: `_new_connection_with_params` is abstract in the
source slice; it establishes one new physical connection to the given
address.  The new session advertises the environment's settings. -/
def newConnectionWithParams (env : ConnectEnv) (p : PoolState) :
    PoolState × Nat :=
  ({ p with conns := p.conns ++
      [{ closed := false, holderIdx := none,
         settingsSuggested := env.settings }] },
   p.conns.length)

/-- BasePoolImpl._get_first_connection, lines 454-470: resolve the connect
arguments, connect, remember the working triple, and honor a (truthy)
server-suggested concurrency when the user pinned none. -/
def getFirstConnection (env : ConnectEnv) (p : PoolState) :
    PoolState × Nat :=
  let r : PoolState × Nat := newConnectionWithParams env p
  let p2 : PoolState :=
            { r.1 with workingAddr := some env.parsedAddr,
                       workingConfig := some env.parsedConfig,
                       workingParams := some env.parsedParams }
  let p3 :=
    if p2.userConcurrency = none then
      match (p2.conns[r.2]?).bind (fun cn => cn.settingsSuggested) with
      | some k =>
        if k ≠ 0 then resizeHolderPool { p2 with concurrency := k } else p2
      | none => p2
    else p2
  (p3, r.2)

/-- Modelled from the spec: `_maybe_get_first_connection` is abstract in the
source slice; it performs the first-connection resolution under a lock,
rechecking that no working address is known yet. -/
def maybeGetFirstConnection (env : ConnectEnv) (p : PoolState) :
    PoolState × Option Nat :=
  if p.workingAddr = none then
    let r := getFirstConnection env p
    (r.1, some r.2)
  else (p, none)

/-- BasePoolImpl._get_new_connection, lines 472-489 (`on_connect` is `None`
in the pools modelled here, so the callback branch is skipped). -/
def getNewConnection (env : ConnectEnv) (p : PoolState) : PoolState × Nat :=
  let r : PoolState × Option Nat :=
    if p.workingAddr = none then maybeGetFirstConnection env p
    else (p, none)
  match r.2 with
  | some c => (r.1, c)
  | none => newConnectionWithParams env r.1

/-- PoolConnectionHolder.connect, lines 254-263: fatal if a connection is
already held; otherwise obtain a new connection, attach the back-reference
and stamp the holder with the current pool generation. -/
def holderConnect (env : ConnectEnv) (p : PoolState) (h : Nat) :
    PoolState × Except Err Nat :=
  match p.holders[h]? with
  | none => (p, .error (.internalClientError "no such holder"))
  | some hd =>
    if hd.con ≠ none then
      (p, .error (.internalClientError
        ("PoolConnectionHolder.connect() called while another "
          ++ "connection already exists")))
    else
      let r := getNewConnection env p
      let p2 := r.1.modConn r.2 (fun cn => { cn with holderIdx := some h })
      let p3 := p2.modHolder h
        (fun hd1 => { hd1 with con := some r.2,
                               generation := some p2.generation })
      (p3, .ok r.2)

/-- Whether the connection at index `c` reports closed (an index that does
not exist counts as closed; such indices never arise from the operations
here). -/
def PoolState.connClosed (p : PoolState) (c : Nat) : Bool :=
  ((p.conns[c]?).map (fun cn => cn.closed)).getD true

/-- PoolConnectionHolder.acquire, lines 265-281: reconnect when the held
connection is gone or closed, lazily reconnect when the generation stamp is
stale (closing the stale connection first), then clear the release event
and hand out the connection.  `on_acquire` is `None` here. -/
def holderAcquire (env : ConnectEnv) (p : PoolState) (h : Nat) :
    PoolState × Except Err Nat :=
  match p.holders[h]? with
  | none => (p, .error (.internalClientError "no such holder"))
  | some hd =>
    let step : PoolState × Except Err Unit :=
      match hd.con with
      | none =>
        let r := holderConnect env p h
        (r.1, r.2.map (fun _ => ()))
      | some c =>
        if p.connClosed c then
          let p1 := p.modHolder h (fun hd1 => { hd1 with con := none })
          let r := holderConnect env p1 h
          (r.1, r.2.map (fun _ => ()))
        else if hd.generation ≠ some p.generation then
          let p1 := holderClose p h
          let p2 := p1.modHolder h (fun hd1 => { hd1 with con := none })
          let r := holderConnect env p2 h
          (r.1, r.2.map (fun _ => ()))
        else (p, .ok ())
    match step with
    | (p1, .error e) => (p1, .error e)
    | (p1, .ok _) =>
      let p2 := p1.modHolder h
        (fun hd1 => { hd1 with releaseEventSet := false })
      match p2.holders[h]? with
      | none => (p2, .error (.internalClientError "no such holder"))
      | some hd2 =>
        match hd2.con with
        | some c => (p2, .ok c)
        | none => (p2, .error (.internalClientError "holder lost connection"))

/-- PoolConnectionHolder.release, lines 283-312: fatal on a free holder;
route a closed connection to the release-on-close path; fully close a
generation-stale connection; otherwise soft-release.  `on_release` is
`None` here.  (A checked-out holder always holds a connection, so the
source's unguarded `self._con.is_closed()` dereference corresponds to the
`con = none` error branch.) -/
def holderRelease (p : PoolState) (h : Nat) : PoolState × Except Err Unit :=
  match p.holders[h]? with
  | none => (p, .error (.internalClientError "no such holder"))
  | some hd =>
    if hd.releaseEventSet then
      (p, .error (.internalClientError
        ("PoolConnectionHolder.release() called on "
          ++ "a free connection holder")))
    else
      match hd.con with
      | none => (p, .error (.internalClientError "holder has no connection"))
      | some c =>
        if p.connClosed c then
          (holderReleaseOnClose p h, .ok ())
        else
          let p1 := p.modHolder h (fun hd1 => { hd1 with timeout := none })
          if hd.generation ≠ some p.generation then
            (holderClose p1 h, .ok ())
          else
            (holderSoftRelease p1 h, .ok ())

/-- BasePoolImpl.release, lines 491-510, with the abstract `_release`
modelled from the spec: it delegates to `holder.release(timeout)`.  An
index with no connection corresponds to the source's invalid-connection
interface error; a single pool is modelled, so the foreign-pool check
(`ch._pool is not self`) never fires. -/
def poolRelease (p : PoolState) (c : Nat) : PoolState × Except Err Unit :=
  match p.conns[c]? with
  | none => (p, .error (.interfaceError
      ("BasePoolImpl.release() received invalid connection: "
        ++ "it does not belong to any connection pool")))
  | some cn =>
    match cn.holderIdx with
    | none => (p, .ok ())
    | some h => holderRelease p h

/-! ## Concrete sample states, used by witnesses and counterexamples -/

/-- An oracle on which every privileged execute succeeds. -/
def execAllOk : String → Except Nat Unit := fun _ => .ok ()

/-- An oracle on which every privileged execute raises exception 7. -/
def execFail7 : String → Except Nat Unit := fun _ => .error 7

/-- A connection inner state with no top-level transaction. -/
def conn0 : ConnInner :=
  { topXact := none, uidCounter := 0 }

/-- A sample transaction (serializable, read-only, deferrable unset) in the
given state. -/
def txSample (st : TransactionState) : Tx :=
  { objId := 1, isolation := some "serializable", readonly := some true,
    deferrable := none, state := st, nested := false, id := none,
    managed := false }

/-- A sample started top-level transaction and the connection that holds it
as `_top_xact`. -/
def connWithTop : ConnInner :=
  { topXact := some (txSample .STARTED), uidCounter := 0 }

/-- A fresh nested transaction with every attribute unset. -/
def txUnset : Tx :=
  { objId := 2, isolation := none, readonly := none, deferrable := none,
    state := .NEW, nested := false, id := none, managed := false }

/-- Empty connect arguments. -/
def ca0 : ConnectArgs :=
  { dsn := none, kwargs := [] }

/-- A pool with one checked-out holder holding open connection 0 (the state
after one successful acquire on a concurrency-1 pool). -/
def poolCheckedOut : PoolState :=
  { conns := [{ closed := false, holderIdx := some 0,
                settingsSuggested := none }],
    holders := [{ con := some 0, generation := some 0, timeout := none,
                  releaseEventSet := false }],
    queue := some [], queueMaxsize := 1, userConcurrency := some 1,
    concurrency := 1, generation := 0,
    workingAddr := some "addr", workingConfig := some "cfg",
    workingParams := some "params",
    connectArgs := ca0, codecsRegistry := [], queryCache := [],
    closing := false, closed := false }

/-- An initialized pool with one free empty holder, no user concurrency and
no first connection yet. -/
def poolFresh : PoolState :=
  { conns := [], holders := [newHolder], queue := some [0],
    queueMaxsize := 1, userConcurrency := none, concurrency := 1,
    generation := 0,
    workingAddr := none, workingConfig := none, workingParams := none,
    connectArgs := ca0, codecsRegistry := [], queryCache := [],
    closing := false, closed := false }

/-- The pool of `poolCheckedOut` after its holder was freed and the pool
generation was bumped by `expire_connections`: the holder's stamp 0 is now
stale. -/
def poolStale : PoolState :=
  { poolCheckedOut with
      generation := 1,
      holders := [{ con := some 0, generation := some 0, timeout := none,
                    releaseEventSet := true }] }

/-- A connect environment whose established sessions suggest concurrency
`k`. -/
def envSuggest (k : Option Nat) : ConnectEnv :=
  { parsedAddr := "addr", parsedConfig := "cfg", parsedParams := "params",
    settings := k }

/-! ## Theorems -/

/-- Auxiliary: the query-building tail never changes the transaction's
state field. -/
theorem buildStartQuery_state (t : Tx) (con : ConnInner) :
    (buildStartQuery t con).1.state = t.state := by
  unfold buildStartQuery
  split <;> rfl

/-- Auxiliary: inheriting unset attributes touches only the attribute
fields; state, nested flag, id, managed flag and object identity are kept.
-/
theorem inheritFromTop_frame (t top : Tx) :
    (inheritFromTop t top).state = t.state ∧
    (inheritFromTop t top).nested = t.nested ∧
    (inheritFromTop t top).id = t.id ∧
    (inheritFromTop t top).managed = t.managed ∧
    (inheritFromTop t top).objId = t.objId := by
  unfold inheritFromTop inheritIso inheritReadonly inheritDeferrable
  split <;> split <;> split <;> exact ⟨rfl, rfl, rfl, rfl, rfl⟩

/-- Auxiliary: `_make_start_query` never changes the transaction's state
field (it mutates only the attribute fields, the nested flag and the
savepoint id). -/
theorem makeStartQuery_state (t : Tx) (con : ConnInner) :
    (makeStartQuery t con).1.state = t.state := by
  simp only [makeStartQuery]
  split
  · rfl
  · split
    · rfl
    · split
      · exact buildStartQuery_state t _
      · split
        · exact (inheritFromTop_frame t _).1
        · split
          · exact (inheritFromTop_frame t _).1
          · split
            · exact (inheritFromTop_frame t _).1
            · exact (buildStartQuery_state _ _).trans
                (inheritFromTop_frame t _).1

/-- C1: from any terminal state (COMMITTED, ROLLEDBACK, FAILED) a further
start, commit or rollback fails with an InterfaceError whose message names
the attempted operation and the current state; commit and rollback also
fail from NEW, and start fails when already STARTED. -/
theorem c1_state_guards (t : Tx) (con : ConnInner)
    (exec : String → Except Nat Unit) (hm : t.managed = false) :
    (t.state = .COMMITTED →
      (t.start con exec).2.2 = .error (.interfaceError
        "cannot start; the transaction is already committed") ∧
      (t.commit con exec).2.2 = .error (.interfaceError
        "cannot commit; the transaction is already committed") ∧
      (t.rollback con exec).2.2 = .error (.interfaceError
        "cannot rollback; the transaction is already committed")) ∧
    (t.state = .ROLLEDBACK →
      (t.start con exec).2.2 = .error (.interfaceError
        "cannot start; the transaction is already rolled back") ∧
      (t.commit con exec).2.2 = .error (.interfaceError
        "cannot commit; the transaction is already rolled back") ∧
      (t.rollback con exec).2.2 = .error (.interfaceError
        "cannot rollback; the transaction is already rolled back")) ∧
    (t.state = .FAILED →
      (t.start con exec).2.2 = .error (.interfaceError
        "cannot start; the transaction is in error state") ∧
      (t.commit con exec).2.2 = .error (.interfaceError
        "cannot commit; the transaction is in error state") ∧
      (t.rollback con exec).2.2 = .error (.interfaceError
        "cannot rollback; the transaction is in error state")) ∧
    (t.state = .NEW →
      (t.commit con exec).2.2 = .error (.interfaceError
        "cannot commit; the transaction is not yet started") ∧
      (t.rollback con exec).2.2 = .error (.interfaceError
        "cannot rollback; the transaction is not yet started")) ∧
    (t.state = .STARTED →
      (t.start con exec).2.2 = .error (.interfaceError
        "cannot start; the transaction is already started")) := by
  obtain ⟨oid, iso, ro, dfr, st, ne, tid, mg⟩ := t
  simp only [Tx.managed] at hm
  subst hm
  cases st <;>
    simp [Tx.start, Tx.commit, Tx.rollback, Tx.commitInner, Tx.rollbackInner,
          makeStartQuery, makeCommitQuery, makeRollbackQuery,
          checkState, checkStateBase]

/-- Witness for C1 at a concrete committed transaction. -/
theorem c1_state_guards_witness :
    (Tx.start (txSample .COMMITTED) conn0 execAllOk).2.2 =
      .error (.interfaceError
        "cannot start; the transaction is already committed") :=
  ((c1_state_guards (txSample .COMMITTED) conn0 execAllOk rfl).1 rfl).1

/-- Auxiliary: `_make_commit_query` returns the transaction object
unchanged. -/
theorem makeCommitQuery_tx (t : Tx) (con : ConnInner) :
    (makeCommitQuery t con).1 = t := by
  unfold makeCommitQuery
  repeat' split
  all_goals rfl

/-- Auxiliary: `_make_rollback_query` returns the transaction object
unchanged. -/
theorem makeRollbackQuery_tx (t : Tx) (con : ConnInner) :
    (makeRollbackQuery t con).1 = t := by
  unfold makeRollbackQuery
  repeat' split
  all_goals rfl

/-- C2: an exception raised by the privileged execute during start, commit
or rollback forces the state to FAILED with the original exception
re-raised unchanged; on success the state becomes STARTED, COMMITTED or
ROLLEDBACK respectively; and FAILED is never entered by any path other
than such an exception (a guard error leaves the state as it was). -/
theorem c2_failed_only_via_execute (t : Tx) (con : ConnInner)
    (exec : String → Except Nat Unit) :
    (∀ q e, (makeStartQuery t con).2.2 = .ok q → exec q = .error e →
      (t.start con exec).1.state = .FAILED ∧
      (t.start con exec).2.2 = .error (.raised e)) ∧
    (∀ q, (makeStartQuery t con).2.2 = .ok q → exec q = .ok () →
      (t.start con exec).1.state = .STARTED ∧
      (t.start con exec).2.2 = .ok ()) ∧
    (∀ q e, (makeCommitQuery t con).2.2 = .ok q → exec q = .error e →
      (t.commitInner con exec).1.state = .FAILED ∧
      (t.commitInner con exec).2.2 = .error (.raised e)) ∧
    (∀ q, (makeCommitQuery t con).2.2 = .ok q → exec q = .ok () →
      (t.commitInner con exec).1.state = .COMMITTED ∧
      (t.commitInner con exec).2.2 = .ok ()) ∧
    (∀ q e, (makeRollbackQuery t con).2.2 = .ok q → exec q = .error e →
      (t.rollbackInner con exec).1.state = .FAILED ∧
      (t.rollbackInner con exec).2.2 = .error (.raised e)) ∧
    (∀ q, (makeRollbackQuery t con).2.2 = .ok q → exec q = .ok () →
      (t.rollbackInner con exec).1.state = .ROLLEDBACK ∧
      (t.rollbackInner con exec).2.2 = .ok ()) ∧
    ((t.start con exec).1.state = .FAILED → t.state = .FAILED ∨
      ∃ q e, (makeStartQuery t con).2.2 = .ok q ∧ exec q = .error e) ∧
    ((t.commitInner con exec).1.state = .FAILED → t.state = .FAILED ∨
      ∃ q e, (makeCommitQuery t con).2.2 = .ok q ∧ exec q = .error e) ∧
    ((t.rollbackInner con exec).1.state = .FAILED → t.state = .FAILED ∨
      ∃ q e, (makeRollbackQuery t con).2.2 = .ok q ∧ exec q = .error e) := by
  refine ⟨?_, ?_, ?_, ?_, ?_, ?_, ?_, ?_, ?_⟩
  · intro q e hq he
    simp [Tx.start, hq, he]
  · intro q hq he
    simp [Tx.start, hq, he]
  · intro q e hq he
    simp [Tx.commitInner, hq, he]
  · intro q hq he
    simp [Tx.commitInner, hq, he]
  · intro q e hq he
    simp [Tx.rollbackInner, hq, he]
  · intro q hq he
    simp [Tx.rollbackInner, hq, he]
  · intro h
    cases hq : (makeStartQuery t con).2.2 with
    | error e =>
      simp only [Tx.start, hq] at h
      exact Or.inl ((makeStartQuery_state t con) ▸ h)
    | ok q =>
      cases he : exec q with
      | error e => exact Or.inr ⟨q, e, rfl, he⟩
      | ok u =>
        simp [Tx.start, hq, he] at h
  · intro h
    cases hq : (makeCommitQuery t con).2.2 with
    | error e =>
      simp only [Tx.commitInner, hq] at h
      exact Or.inl ((congrArg Tx.state (makeCommitQuery_tx t con)) ▸ h)
    | ok q =>
      cases he : exec q with
      | error e => exact Or.inr ⟨q, e, rfl, he⟩
      | ok u =>
        simp [Tx.commitInner, hq, he] at h
  · intro h
    cases hq : (makeRollbackQuery t con).2.2 with
    | error e =>
      simp only [Tx.rollbackInner, hq] at h
      exact Or.inl ((congrArg Tx.state (makeRollbackQuery_tx t con)) ▸ h)
    | ok q =>
      cases he : exec q with
      | error e => exact Or.inr ⟨q, e, rfl, he⟩
      | ok u =>
        simp [Tx.rollbackInner, hq, he] at h

/-- Witness for C2: a failing execute on a fresh start leaves FAILED and
re-raises exception 7. -/
theorem c2_failed_only_via_execute_witness :
    (Tx.start (txSample .NEW) conn0 execFail7).1.state = .FAILED ∧
    (Tx.start (txSample .NEW) conn0 execFail7).2.2 = .error (.raised 7) :=
  (c2_failed_only_via_execute (txSample .NEW) conn0 execFail7).1
    "START TRANSACTION ISOLATION SERIALIZABLE READ ONLY;" 7 rfl rfl

/-- Auxiliary: the isolation attribute after inheritance. -/
theorem inheritFromTop_iso (t top : Tx) :
    (inheritFromTop t top).isolation =
      if t.isolation = none then top.isolation else t.isolation := by
  unfold inheritFromTop inheritIso inheritReadonly inheritDeferrable
  split_ifs <;> rfl

/-- Auxiliary: the readonly attribute after inheritance. -/
theorem inheritFromTop_readonly (t top : Tx) :
    (inheritFromTop t top).readonly =
      if t.readonly = none then top.readonly else t.readonly := by
  unfold inheritFromTop inheritIso inheritReadonly inheritDeferrable
  split_ifs <;> rfl

/-- Auxiliary: the deferrable attribute after inheritance. -/
theorem inheritFromTop_deferrable (t top : Tx) :
    (inheritFromTop t top).deferrable =
      if t.deferrable = none then top.deferrable else t.deferrable := by
  unfold inheritFromTop inheritIso inheritReadonly inheritDeferrable
  split_ifs <;> rfl

/-- Auxiliary: the query-building tail keeps the attribute fields and the
nested flag. -/
theorem buildStartQuery_attrs (t : Tx) (con : ConnInner) :
    (buildStartQuery t con).1.isolation = t.isolation ∧
    (buildStartQuery t con).1.readonly = t.readonly ∧
    (buildStartQuery t con).1.deferrable = t.deferrable ∧
    (buildStartQuery t con).1.nested = t.nested := by
  unfold buildStartQuery
  split <;> exact ⟨rfl, rfl, rfl, rfl⟩

/-- Auxiliary: the query-building tail always returns a query. -/
theorem buildStartQuery_ok (t : Tx) (con : ConnInner) :
    ∃ q, (buildStartQuery t con).2.2 = .ok q := by
  unfold buildStartQuery
  split
  · exact ⟨_, rfl⟩
  · exact ⟨_, rfl⟩

/-- Auxiliary: a nested start whose attributes agree with the top-level
transaction after inheritance reduces to building the savepoint query. -/
theorem makeStartQuery_nested_ok (t top : Tx) (con : ConnInner)
    (hst : t.state = .NEW) (htop : con.topXact = some top)
    (h3i : (inheritFromTop t top).isolation = top.isolation)
    (h3r : (inheritFromTop t top).readonly = top.readonly)
    (h3d : (inheritFromTop t top).deferrable = top.deferrable) :
    makeStartQuery t con =
      buildStartQuery { inheritFromTop t top with nested := true } con := by
  have hg : checkStateBase t.state "start" = .ok () := by
    rw [hst]
    rfl
  have hns : ¬(t.state = TransactionState.STARTED) := by simp [hst]
  simp only [makeStartQuery, hg, if_neg hns, htop]
  rw [if_neg (by simp [h3i]), if_neg (by simp [h3r]),
      if_neg (by simp [h3d])]

/-- C3: starting a transaction on a connection whose top-level transaction
is live: every unset attribute inherits the top-level value exactly; an
explicitly set attribute that differs from the top-level value makes start
fail with an InterfaceError while the connection state (and hence the
stored top-level transaction) is unchanged; otherwise the transaction is
marked nested. -/
theorem c3_nested_attribute_rules (t top : Tx) (con : ConnInner)
    (hst : t.state = .NEW) (htop : con.topXact = some top) :
    ((t.isolation = none →
        (makeStartQuery t con).1.isolation = top.isolation) ∧
     (t.readonly = none →
        (makeStartQuery t con).1.readonly = top.readonly) ∧
     (t.deferrable = none →
        (makeStartQuery t con).1.deferrable = top.deferrable)) ∧
    ((t.isolation ≠ none ∧ t.isolation ≠ top.isolation) ∨
     (t.readonly ≠ none ∧ t.readonly ≠ top.readonly) ∨
     (t.deferrable ≠ none ∧ t.deferrable ≠ top.deferrable) →
      (∃ m, (makeStartQuery t con).2.2 = .error (.interfaceError m)) ∧
      (makeStartQuery t con).2.1 = con) ∧
    ((t.isolation = none ∨ t.isolation = top.isolation) ∧
     (t.readonly = none ∨ t.readonly = top.readonly) ∧
     (t.deferrable = none ∨ t.deferrable = top.deferrable) →
      (∃ q, (makeStartQuery t con).2.2 = .ok q) ∧
      (makeStartQuery t con).1.nested = true) := by
  have hg : checkStateBase t.state "start" = .ok () := by
    rw [hst]
    rfl
  have hns : ¬(t.state = TransactionState.STARTED) := by simp [hst]
  refine ⟨⟨?_, ?_, ?_⟩, ?_, ?_⟩
  · intro hiso
    have h3 : (inheritFromTop t top).isolation = top.isolation := by
      rw [inheritFromTop_iso, if_pos hiso]
    simp only [makeStartQuery, hg, if_neg hns, htop]
    split_ifs with c1 c2 c3
    · exact absurd h3 c1
    · exact h3
    · exact h3
    · exact ((buildStartQuery_attrs _ _).1).trans h3
  · intro hro
    have h3 : (inheritFromTop t top).readonly = top.readonly := by
      rw [inheritFromTop_readonly, if_pos hro]
    simp only [makeStartQuery, hg, if_neg hns, htop]
    split_ifs with c1 c2 c3
    · exact h3
    · exact absurd h3 c2
    · exact h3
    · exact ((buildStartQuery_attrs _ _).2.1).trans h3
  · intro hdfr
    have h3 : (inheritFromTop t top).deferrable = top.deferrable := by
      rw [inheritFromTop_deferrable, if_pos hdfr]
    simp only [makeStartQuery, hg, if_neg hns, htop]
    split_ifs with c1 c2 c3
    · exact h3
    · exact h3
    · exact absurd h3 c3
    · exact ((buildStartQuery_attrs _ _).2.2.1).trans h3
  · intro hconf
    simp only [makeStartQuery, hg, if_neg hns, htop]
    split_ifs with c1 c2 c3
    · exact ⟨⟨_, rfl⟩, rfl⟩
    · exact ⟨⟨_, rfl⟩, rfl⟩
    · exact ⟨⟨_, rfl⟩, rfl⟩
    · exfalso
      rcases hconf with ⟨ha, hb⟩ | ⟨ha, hb⟩ | ⟨ha, hb⟩
      · rw [not_not] at c1
        rw [inheritFromTop_iso, if_neg ha] at c1
        exact hb c1
      · rw [not_not] at c2
        rw [inheritFromTop_readonly, if_neg ha] at c2
        exact hb c2
      · rw [not_not] at c3
        rw [inheritFromTop_deferrable, if_neg ha] at c3
        exact hb c3
  · rintro ⟨hi, hr, hd⟩
    have h3i : (inheritFromTop t top).isolation = top.isolation := by
      rw [inheritFromTop_iso]
      split_ifs with hc
      · rfl
      · exact hi.resolve_left hc
    have h3r : (inheritFromTop t top).readonly = top.readonly := by
      rw [inheritFromTop_readonly]
      split_ifs with hc
      · rfl
      · exact hr.resolve_left hc
    have h3d : (inheritFromTop t top).deferrable = top.deferrable := by
      rw [inheritFromTop_deferrable]
      split_ifs with hc
      · rfl
      · exact hd.resolve_left hc
    rw [makeStartQuery_nested_ok t top con hst htop h3i h3r h3d]
    exact ⟨buildStartQuery_ok _ _, (buildStartQuery_attrs _ _).2.2.2⟩

/-- Witness for C3: a fully unset nested transaction under a started
serializable read-only top-level transaction inherits all attributes and
starts nested. -/
theorem c3_nested_attribute_rules_witness :
    (makeStartQuery txUnset connWithTop).1.isolation =
      some "serializable" ∧
    (makeStartQuery txUnset connWithTop).1.nested = true :=
  ⟨(c3_nested_attribute_rules txUnset (txSample .STARTED) connWithTop
      rfl rfl).1.1 rfl,
   ((c3_nested_attribute_rules txUnset (txSample .STARTED) connWithTop
      rfl rfl).2.2
      ⟨Or.inl rfl, Or.inl rfl, Or.inl rfl⟩).2⟩

/-- C4: query text.  A top-level transaction with isolation
`serializable`, readonly true and deferrable unset produces exactly
`START TRANSACTION ISOLATION SERIALIZABLE READ ONLY;`; a nested
transaction produces `DECLARE SAVEPOINT <id>;` with its freshly assigned
savepoint id on start, and `RELEASE SAVEPOINT <id>;` on commit. -/
theorem c4_control_statement_text (t : Tx) (con : ConnInner) :
    (∀ oid tid mg uid,
      (makeStartQuery
        { objId := oid, isolation := some "serializable",
          readonly := some true, deferrable := none, state := .NEW,
          nested := false, id := tid, managed := mg }
        { topXact := none, uidCounter := uid }).2.2 =
      .ok "START TRANSACTION ISOLATION SERIALIZABLE READ ONLY;") ∧
    (∀ oid tid mg uid (top : Tx),
      ∃ sid,
        (makeStartQuery
          { objId := oid, isolation := none, readonly := none,
            deferrable := none, state := .NEW, nested := false,
            id := tid, managed := mg }
          { topXact := some top, uidCounter := uid }).1.id = some sid ∧
        (makeStartQuery
          { objId := oid, isolation := none, readonly := none,
            deferrable := none, state := .NEW, nested := false,
            id := tid, managed := mg }
          { topXact := some top, uidCounter := uid }).2.2 =
        .ok ("DECLARE SAVEPOINT " ++ sid ++ ";")) ∧
    (t.state = .STARTED → t.nested = true → ∀ sid, t.id = some sid →
      (makeCommitQuery t con).2.2 =
        .ok ("RELEASE SAVEPOINT " ++ sid ++ ";")) := by
  refine ⟨?_, ?_, ?_⟩
  · intro oid tid mg uid
    rfl
  · intro oid tid mg uid top
    rw [makeStartQuery_nested_ok
      { objId := oid, isolation := none, readonly := none,
        deferrable := none, state := .NEW, nested := false,
        id := tid, managed := mg }
      top { topXact := some top, uidCounter := uid } rfl rfl rfl rfl rfl]
    exact ⟨_, rfl, rfl⟩
  · intro h1 h2 sid h3
    have hcs : checkState t.state "commit" = .ok () := by rw [h1]; rfl
    simp only [makeCommitQuery, hcs, if_pos h2, h3, optStr]

/-- Witness for C4: the nested commit statement at a concrete nested
transaction. -/
theorem c4_control_statement_text_witness :
    (makeCommitQuery
      { objId := 2, isolation := some "serializable", readonly := some true,
        deferrable := none, state := .STARTED, nested := true,
        id := some "savepoint_0", managed := false } connWithTop).2.2 =
      .ok "RELEASE SAVEPOINT savepoint_0;" :=
  (c4_control_statement_text
      { objId := 2, isolation := some "serializable", readonly := some true,
        deferrable := none, state := .STARTED, nested := true,
        id := some "savepoint_0", managed := false } connWithTop).2.2
    rfl rfl "savepoint_0" rfl

/-- Auxiliary: a started transaction always gets a commit query. -/
theorem makeCommitQuery_ok (t : Tx) (con : ConnInner)
    (h : t.state = .STARTED) :
    ∃ q, (makeCommitQuery t con).2.2 = .ok q := by
  have hcs : checkState t.state "commit" = .ok () := by
    rw [h]
    rfl
  simp only [makeCommitQuery, hcs]
  split <;> exact ⟨_, rfl⟩

/-- Auxiliary: a started transaction always gets a rollback query. -/
theorem makeRollbackQuery_ok (t : Tx) (con : ConnInner)
    (h : t.state = .STARTED) :
    ∃ q, (makeRollbackQuery t con).2.2 = .ok q := by
  have hcs : checkState t.state "rollback" = .ok () := by
    rw [h]
    rfl
  simp only [makeRollbackQuery, hcs]
  split <;> exact ⟨_, rfl⟩

/-- C8: the scoped-resource protocol: re-entering while the managed flag is
set fails with an InterfaceError; exit with an in-flight exception performs
the rollback and a normal exit performs the commit, the managed flag being
cleared in either case whatever the execute does; and manual commit and
rollback are rejected with an InterfaceError while the managed flag is
set. -/
theorem c8_managed_mode (t : Tx) (con : ConnInner)
    (exec : String → Except Nat Unit) :
    (t.managed = true →
      t.aenter con exec = (t, con, .error (.interfaceError
        "cannot enter context: already in an `async with` block"))) ∧
    (t.aexit con exec true =
      ({ (t.rollbackInner con exec).1 with managed := false },
       (t.rollbackInner con exec).2.1, (t.rollbackInner con exec).2.2)) ∧
    (t.aexit con exec false =
      ({ (t.commitInner con exec).1 with managed := false },
       (t.commitInner con exec).2.1, (t.commitInner con exec).2.2)) ∧
    (t.state = .STARTED → (∀ q, exec q = .ok ()) →
      (t.aexit con exec true).1.state = .ROLLEDBACK ∧
      (t.aexit con exec false).1.state = .COMMITTED) ∧
    (∀ b, (t.aexit con exec b).1.managed = false) ∧
    (t.managed = true →
      t.commit con exec = (t, con, .error (.interfaceError
        "cannot manually commit from within an `async with` block")) ∧
      t.rollback con exec = (t, con, .error (.interfaceError
        "cannot manually rollback from within an `async with` block"))) := by
  refine ⟨?_, rfl, rfl, ?_, fun b => rfl, ?_⟩
  · intro hm
    simp [Tx.aenter, hm]
  · intro hst hexec
    constructor
    · obtain ⟨q, hq⟩ := makeRollbackQuery_ok t con hst
      simp [Tx.aexit, Tx.rollbackInner, hq, hexec q]
    · obtain ⟨q, hq⟩ := makeCommitQuery_ok t con hst
      simp [Tx.aexit, Tx.commitInner, hq, hexec q]
  · intro hm
    exact ⟨by simp [Tx.commit, hm], by simp [Tx.rollback, hm]⟩

/-- Witness for C8 at concrete transactions: re-entry is rejected and a
normal managed exit with an exception in flight rolls back. -/
theorem c8_managed_mode_witness :
    Tx.aenter { txSample .STARTED with managed := true } conn0 execAllOk =
      ({ txSample .STARTED with managed := true }, conn0,
        .error (.interfaceError
          "cannot enter context: already in an `async with` block")) ∧
    (Tx.aexit (txSample .STARTED) conn0 execAllOk true).1.state =
      .ROLLEDBACK :=
  ⟨(c8_managed_mode { txSample .STARTED with managed := true } conn0
      execAllOk).1 rfl,
   ((c8_managed_mode (txSample .STARTED) conn0 execAllOk).2.2.2.1 rfl
      (fun _ => rfl)).1⟩

/-- C9: set_connect_args replaces the stored connect arguments, installs a
fresh empty codec registry and query cache, and resets the remembered
working address/config/params to None, while the generation counter, the
holder set, the connections, the queue and the concurrency are left
unchanged. -/
theorem c9_set_connect_args (p : PoolState) (dsn : Option String)
    (kwargs : List (String × String)) :
    (setConnectArgs p dsn kwargs).connectArgs =
      { dsn := dsn, kwargs := kwargs } ∧
    (setConnectArgs p dsn kwargs).codecsRegistry = [] ∧
    (setConnectArgs p dsn kwargs).queryCache = [] ∧
    (setConnectArgs p dsn kwargs).workingAddr = none ∧
    (setConnectArgs p dsn kwargs).workingConfig = none ∧
    (setConnectArgs p dsn kwargs).workingParams = none ∧
    (setConnectArgs p dsn kwargs).generation = p.generation ∧
    (setConnectArgs p dsn kwargs).holders = p.holders ∧
    (setConnectArgs p dsn kwargs).conns = p.conns ∧
    (setConnectArgs p dsn kwargs).queue = p.queue ∧
    (setConnectArgs p dsn kwargs).concurrency = p.concurrency :=
  ⟨rfl, rfl, rfl, rfl, rfl, rfl, rfl, rfl, rfl, rfl, rfl⟩

/-- C10: before the availability queue exists, get_free_size returns the
pool's (positive) concurrency, the state every freshly constructed pool is
in; once the queue exists it returns the queue's current size. -/
theorem c10_free_size (ca : ConnectArgs) (c : Option Nat) (p : PoolState)
    (q : List Nat) :
    (∀ p0, PoolState.mk0 ca c = .ok p0 →
      p0.queue = none ∧ p0.getFreeSize = p0.concurrency ∧
      0 < p0.concurrency) ∧
    (p.queue = some q → p.getFreeSize = q.length) := by
  constructor
  · intro p0 h
    cases c with
    | none =>
      simp only [PoolState.mk0, Except.ok.injEq] at h
      subst h
      exact ⟨rfl, rfl, Nat.one_pos⟩
    | some k =>
      simp only [PoolState.mk0] at h
      split at h
      · cases h
      · simp only [Except.ok.injEq] at h
        subst h
        exact ⟨rfl, rfl, Nat.pos_of_ne_zero (by assumption)⟩
  · intro hq
    simp only [PoolState.getFreeSize, hq]

/-- Witness for C10: a freshly constructed pool with concurrency 5 reports
free size 5, and an initialized pool reports its queue size. -/
theorem c10_free_size_witness :
    PoolState.getFreeSize poolFresh = 1 :=
  (c10_free_size ca0 (some 5) poolFresh [0]).2 rfl

/-- Counterexample to C5: after a healthy connection is softly released
back to the pool, a second pool release of the same connection is not a
no-op: it raises an InternalClientError from the holder (the claim says it
must raise no exception). -/
theorem c5_double_release_counterexample :
    (poolRelease poolCheckedOut 0).2 = .ok () ∧
    (poolRelease (poolRelease poolCheckedOut 0).1 0).2 =
      .error (.internalClientError
        ("PoolConnectionHolder.release() called on "
          ++ "a free connection holder")) :=
  ⟨rfl, rfl⟩

/-- C5 amended: a second pool release is a no-op (no exception, no second
enqueue) exactly when the connection no longer references a holder, which
is the release-on-close/terminate path; and the private holder `_release`
is itself idempotent (on an already-free holder it changes nothing and
enqueues nothing).  By contrast a pool release of a connection that still
references its now-free holder fails with an InternalClientError. -/
theorem c5_release_idempotence (p : PoolState) (c h : Nat) :
    (∀ cn, p.conns[c]? = some cn → cn.holderIdx = none →
      poolRelease p c = (p, .ok ())) ∧
    (∀ hd, p.holders[h]? = some hd → hd.releaseEventSet = true →
      holderSoftRelease p h = p) ∧
    (∀ cn hd, p.conns[c]? = some cn → cn.holderIdx = some h →
      p.holders[h]? = some hd → hd.releaseEventSet = true →
      ∃ m, (poolRelease p c).2 = .error (.internalClientError m)) := by
  refine ⟨?_, ?_, ?_⟩
  · intro cn hc hn
    simp [poolRelease, hc, hn]
  · intro hd hh he
    simp [holderSoftRelease, hh, he]
  · intro cn hd hc hn hh he
    simp [poolRelease, hc, hn, holderRelease, hh, he]

/-- Witness for C5 amended: a pool whose connection was detached by the
terminate path no-ops on release, and the holder of the softly released
pool soft-releases idempotently. -/
theorem c5_release_idempotence_witness :
    poolRelease
      { poolCheckedOut with
          conns := [{ closed := true, holderIdx := none,
                      settingsSuggested := none }] } 0 =
      ({ poolCheckedOut with
          conns := [{ closed := true, holderIdx := none,
                      settingsSuggested := none }] }, .ok ()) ∧
    holderSoftRelease poolStale 0 = poolStale :=
  ⟨(c5_release_idempotence
      { poolCheckedOut with
          conns := [{ closed := true, holderIdx := none,
                      settingsSuggested := none }] } 0 0).1 _ rfl rfl,
   (c5_release_idempotence poolStale 0 0).2.1 _ rfl rfl⟩

/-- Auxiliary: appending fresh holders grows the holder list by exactly
`n` and touches nothing else we track here. -/
theorem addHolders_length (p : PoolState) (n : Nat) :
    (addHolders p n).holders.length = p.holders.length + n := by
  induction n generalizing p with
  | zero => rfl
  | succ m ih =>
    simp only [addHolders]
    rw [ih]
    simp only [List.length_append, List.length_singleton]
    omega

/-- Auxiliary: appending fresh holders does not change the concurrency. -/
theorem addHolders_concurrency (p : PoolState) (n : Nat) :
    (addHolders p n).concurrency = p.concurrency := by
  induction n generalizing p with
  | zero => rfl
  | succ m ih =>
    simp only [addHolders]
    rw [ih]

/-- Counterexample to C7: a first connection whose settings report
`suggested_pool_concurrency = 0` is ignored (Python truthiness), so the
pool concurrency stays 1, not 0 as the claim (quantified over every
reported K) would require. -/
theorem c7_zero_suggestion_counterexample :
    (getFirstConnection (envSuggest (some 0)) poolFresh).1.concurrency = 1 ∧
    (1 : Nat) ≠ 0 :=
  ⟨rfl, Nat.one_ne_zero⟩

/-- C7 amended: when no explicit concurrency was given and the first
established connection reports a nonzero suggested_pool_concurrency K (at
least the current holder count), the pool concurrency becomes K and the
holder set is grown to K holders; a zero or absent suggestion is ignored,
and with an explicit user concurrency the suggestion is ignored entirely.
-/
theorem c7_suggested_concurrency (env : ConnectEnv) (p : PoolState)
    (k : Nat) (q : List Nat) :
    (p.userConcurrency = none → env.settings = some k → k ≠ 0 →
     p.queue = some q → p.holders.length ≤ k →
      (getFirstConnection env p).1.concurrency = k ∧
      (getFirstConnection env p).1.holders.length = k) ∧
    (p.userConcurrency = none → env.settings = some 0 →
      (getFirstConnection env p).1.concurrency = p.concurrency ∧
      (getFirstConnection env p).1.holders = p.holders) ∧
    (p.userConcurrency = none → env.settings = none →
      (getFirstConnection env p).1.concurrency = p.concurrency ∧
      (getFirstConnection env p).1.holders = p.holders) ∧
    (∀ u, p.userConcurrency = some u →
      (getFirstConnection env p).1.concurrency = p.concurrency ∧
      (getFirstConnection env p).1.holders = p.holders) := by
  have hlook : ∀ s,
      (p.conns ++ [Conn.mk false none s])[p.conns.length]? =
        some (Conn.mk false none s) :=
    fun s => List.getElem?_concat_length _ _
  refine ⟨?_, ?_, ?_, ?_⟩
  · intro hu hs hk hq hlen
    simp only [getFirstConnection, newConnectionWithParams]
    simp [hu, hs, hlook, hk]
    simp [resizeHolderPool, hq]
    by_cases hlt : p.holders.length < k
    · rw [if_pos hlt]
      constructor
      · rw [addHolders_concurrency]
        split <;> rfl
      · split <;>
          (rw [addHolders_length] ; exact Nat.add_sub_cancel' hlen)
    · rw [if_neg hlt]
      have hexact : p.holders.length = k := by omega
      exact ⟨rfl, hexact⟩
  · intro hu hs
    simp only [getFirstConnection, newConnectionWithParams]
    simp [hu, hs, hlook]
  · intro hu hs
    simp only [getFirstConnection, newConnectionWithParams]
    simp [hu, hs, hlook]
  · intro u hu
    simp only [getFirstConnection, newConnectionWithParams]
    simp [hu]

/-- Witness for C7 amended: a first connection suggesting 4 on a fresh
1-holder pool grows the pool to concurrency 4 with 4 holders, while a
first connection with no suggestion leaves concurrency 1 and the holder
set unchanged. -/
theorem c7_suggested_concurrency_witness :
    ((getFirstConnection (envSuggest (some 4)) poolFresh).1.concurrency = 4 ∧
     (getFirstConnection (envSuggest (some 4)) poolFresh).1.holders.length
       = 4) ∧
    (getFirstConnection (envSuggest none) poolFresh).1.concurrency = 1 :=
  ⟨(c7_suggested_concurrency (envSuggest (some 4)) poolFresh 4 [0]).1
     rfl rfl (by decide) rfl (by decide),
   ((c7_suggested_concurrency (envSuggest none) poolFresh 4 [0]).2.2.1
     rfl rfl).1⟩


/-- Auxiliary: the element appended to a list that was updated in place is
found at the old length. -/
theorem getElem?_set_concat {α : Type} (l : List α) (i : Nat) (x y : α) :
    ((l.set i x) ++ [y])[l.length]? = some y := by
  have hl : (l.set i x).length = l.length := List.length_set l i x
  rw [← hl]
  exact List.getElem?_concat_length _ _

/-- C6: expire_connections only increments the generation counter (closing
nothing and touching no holder or connection), and the next acquire on a
holder whose stamp is stale closes the stale connection and connects a
fresh one stamped with the current generation before returning it, leaving
every other holder and connection (and the queue) unchanged. -/
theorem c6_lazy_expiry (env : ConnectEnv) (p : PoolState) (h c : Nat)
    (hd : Holder) (cn : Conn) (a : String)
    (hh : p.holders[h]? = some hd) (hcon : hd.con = some c)
    (hc : p.conns[c]? = some cn) (hopen : cn.closed = false)
    (hback : cn.holderIdx = some h)
    (hstale : hd.generation ≠ some p.generation)
    (hfree : hd.releaseEventSet = true)
    (hwork : p.workingAddr = some a) :
    (∀ p2 : PoolState,
      expireConnections p2 = { p2 with generation := p2.generation + 1 } ∧
      p2.generation ≠ (expireConnections p2).generation) ∧
    (holderAcquire env p h).2 = .ok p.conns.length ∧
    p.conns.length ≠ c ∧
    (holderAcquire env p h).1.conns[c]? =
      some { cn with closed := true, holderIdx := none } ∧
    (holderAcquire env p h).1.conns[p.conns.length]? =
      some { closed := false,
             holderIdx := some h,
             settingsSuggested := env.settings } ∧
    (holderAcquire env p h).1.holders[h]? =
      some { hd with
             con := some p.conns.length,
             generation := some p.generation,
             releaseEventSet := false } ∧
    (holderAcquire env p h).1.generation = p.generation ∧
    (holderAcquire env p h).1.queue = p.queue ∧
    (∀ j, j ≠ h → (holderAcquire env p h).1.holders[j]? = p.holders[j]?) ∧
    (∀ d, d ≠ c → d < p.conns.length →
      (holderAcquire env p h).1.conns[d]? = p.conns[d]?) := by
  have hclen : c < p.conns.length := (List.getElem?_eq_some.mp hc).1
  have hhlen : h < p.holders.length := (List.getElem?_eq_some.mp hh).1
  refine ⟨fun p2 => ⟨rfl, Nat.ne_of_lt (Nat.lt_succ_self _)⟩, ?_,
    Nat.ne_of_gt hclen, ?_, ?_, ?_, ?_, ?_, ?_, ?_⟩
  · simp [holderAcquire, holderClose, connTerminate, connCleanup,
      holderReleaseOnClose, holderSoftRelease, holderConnect,
      getNewConnection, maybeGetFirstConnection, newConnectionWithParams,
      PoolState.connClosed, PoolState.modConn, PoolState.modHolder,
      Except.map,
      hh, hcon, hc, hopen, hback, hstale, hfree, hwork, hclen, hhlen,
      List.getElem?_set_self, List.getElem?_set_ne, List.length_set,
      List.getElem?_concat_length]
  · simp [holderAcquire, holderClose, connTerminate, connCleanup,
      holderReleaseOnClose, holderSoftRelease, holderConnect,
      getNewConnection, maybeGetFirstConnection, newConnectionWithParams,
      PoolState.connClosed, PoolState.modConn, PoolState.modHolder,
      Except.map,
      hh, hcon, hc, hopen, hback, hstale, hfree, hwork, hclen, hhlen,
      List.getElem?_set_self, List.getElem?_set_ne, List.length_set,
      List.getElem?_concat_length, List.getElem?_append_left,
      getElem?_set_concat]
  · simp [holderAcquire, holderClose, connTerminate, connCleanup,
      holderReleaseOnClose, holderSoftRelease, holderConnect,
      getNewConnection, maybeGetFirstConnection, newConnectionWithParams,
      PoolState.connClosed, PoolState.modConn, PoolState.modHolder,
      Except.map,
      hh, hcon, hc, hopen, hback, hstale, hfree, hwork, hclen, hhlen,
      List.getElem?_set_self, List.getElem?_set_ne, List.length_set,
      List.getElem?_concat_length, List.getElem?_append_left,
      getElem?_set_concat]
  · simp [holderAcquire, holderClose, connTerminate, connCleanup,
      holderReleaseOnClose, holderSoftRelease, holderConnect,
      getNewConnection, maybeGetFirstConnection, newConnectionWithParams,
      PoolState.connClosed, PoolState.modConn, PoolState.modHolder,
      Except.map,
      hh, hcon, hc, hopen, hback, hstale, hfree, hwork, hclen, hhlen,
      List.getElem?_set_self, List.getElem?_set_ne, List.length_set,
      List.getElem?_concat_length, List.getElem?_append_left,
      getElem?_set_concat]
  · simp [holderAcquire, holderClose, connTerminate, connCleanup,
      holderReleaseOnClose, holderSoftRelease, holderConnect,
      getNewConnection, maybeGetFirstConnection, newConnectionWithParams,
      PoolState.connClosed, PoolState.modConn, PoolState.modHolder,
      Except.map,
      hh, hcon, hc, hopen, hback, hstale, hfree, hwork, hclen, hhlen,
      List.getElem?_set_self, List.getElem?_set_ne, List.length_set,
      List.getElem?_concat_length]
  · simp [holderAcquire, holderClose, connTerminate, connCleanup,
      holderReleaseOnClose, holderSoftRelease, holderConnect,
      getNewConnection, maybeGetFirstConnection, newConnectionWithParams,
      PoolState.connClosed, PoolState.modConn, PoolState.modHolder,
      Except.map,
      hh, hcon, hc, hopen, hback, hstale, hfree, hwork, hclen, hhlen,
      List.getElem?_set_self, List.getElem?_set_ne, List.length_set,
      List.getElem?_concat_length]
  · intro j hj
    simp [holderAcquire, holderClose, connTerminate, connCleanup,
      holderReleaseOnClose, holderSoftRelease, holderConnect,
      getNewConnection, maybeGetFirstConnection, newConnectionWithParams,
      PoolState.connClosed, PoolState.modConn, PoolState.modHolder,
      Except.map,
      hh, hcon, hc, hopen, hback, hstale, hfree, hwork, hclen, hhlen,
      List.getElem?_set_self, List.length_set,
      List.getElem?_concat_length,
      List.getElem?_set_ne (Ne.symm hj)]
  · intro d hdc hdlen
    simp [holderAcquire, holderClose, connTerminate, connCleanup,
      holderReleaseOnClose, holderSoftRelease, holderConnect,
      getNewConnection, maybeGetFirstConnection, newConnectionWithParams,
      PoolState.connClosed, PoolState.modConn, PoolState.modHolder,
      Except.map,
      hh, hcon, hc, hopen, hback, hstale, hfree, hwork, hclen, hhlen,
      List.getElem?_set_self, List.getElem?_set_ne, List.length_set,
      List.getElem?_concat_length, hdlen,
      List.getElem?_append_left,
      List.getElem?_set_ne (Ne.symm hdc)]

/-- Witness for C6: acquiring the stale holder of a concrete expired pool
returns the freshly connected connection 1 and closes connection 0. -/
theorem c6_lazy_expiry_witness :
    (holderAcquire (envSuggest none) poolStale 0).2 = .ok 1 ∧
    (holderAcquire (envSuggest none) poolStale 0).1.conns[0]? =
      some { closed := true, holderIdx := none,
             settingsSuggested := none } :=
  ⟨(c6_lazy_expiry (envSuggest none) poolStale 0 0 _ _ "addr"
      rfl rfl rfl rfl rfl (by decide) rfl rfl).2.1,
   (c6_lazy_expiry (envSuggest none) poolStale 0 0 _ _ "addr"
      rfl rfl rfl rfl rfl (by decide) rfl rfl).2.2.2.1⟩

end EdgeDB
